import Mathlib

/-!
Verification of the vendor onboarding validation and mutation pipeline of the
saleor-vendor-plugin repository (`vendor/graphql/mutations.py`, `vendor/models.py`).

The Python code is shallowly embedded: each mutation's `clean_input` /
`perform_mutation` becomes a pure Lean function over explicit data, an explicit
vendor store (a list of stored rows, standing for the database table), and an
environment record holding the host-framework calls (e-mail validation, phone
parsing, slug generation, HTTP requests) as oracles.  Python `raise` is modelled
by dedicated result constructors; Python dict truthiness of optional string
inputs is modelled by `truthy`.
-/

namespace Vendor

/-- Registration types, from `models.Vendor.RegistrationType` (COMPANY = 1, MAROOF = 2). -/
inductive RegistrationType where
  | COMPANY
  | MAROOF
deriving DecidableEq, Repr

/-- Error codes, from `vendor/graphql/enums.py` (`VendorErrorCode`). -/
inductive VendorErrorCode where
  | UNKNOWN_ERROR
  | EXISTING_VENDOR
  | INVALID_BRAND_NAME
  | INVALID_FIRST_NAME
  | INVALID_LAST_NAME
  | INVALID_VENDOR
  | INVALID_SLUG
  | INVALID_PHONE_NUMBER
  | INVALID_EMAIL
  | INVALID_REGISTRATION_NUMBER
  | INVALID_VAT
  | INVALID_RESIDENCE_ID
  | INVALID_NATIONAL_ID
  | MISSING_VAT
  | INVALID_FIELD_VALUE
  | ONLY_ONE_ALLOWED
  | INVALID_IMAGE_URL
  | REQUIRED
deriving DecidableEq, Repr

/-- Python truthiness of `data.get(field)` for an optional string field:
`None` and `""` are falsy, any other string is truthy. -/
def truthy : Option String → Bool
  | none => false
  | some s => s ≠ ""

/-- `numbers_only = re.compile("[0-9]+")`; `numbers_only.match(s)` matches a
maximal non-empty run of characters of the class `[0-9]` anchored at the start
of `s`, and returns `None` (here `none`) when no such non-empty run exists. -/
def numbers_only_match (s : String) : Option String :=
  let m := s.data.takeWhile (fun c => decide ('0' ≤ c) && decide (c ≤ '9'))
  if m.isEmpty then none else some (String.mk m)

/-- `is_numbers_only(s)`: `numbers_only.match(s)`, truthy iff the match object
is not `None`. -/
def is_numbers_only (s : String) : Bool :=
  (numbers_only_match s).isSome

/-- A stored vendor row, from `models.Vendor` (`vendor/models.py`).
Per the model declaration, `brand_name`, `slug` and `email` carry
`unique=True`; `phone_number` is declared with `unique=False`. -/
structure StoredVendor where
  id : String
  brand_name : String
  slug : String
  email : String
  phone_number : String
  registration_number : String
  residence_id : Option String
  national_id : Option String
  vat_number : Option String
  logo : Option String
  header_image : Option String
  registration_type : RegistrationType
deriving DecidableEq, Repr

/-- Input of `VendorCreate` (`VendorCreateInput`): `brand_name`, `first_name`,
`last_name`, `phone_number`, `email`, `registration_type` and
`registration_number` are required; `slug`, `residence_id`, `national_id` and
`vat_number` are optional. -/
structure VendorCreateData where
  brand_name : String
  first_name : String
  last_name : String
  email : String
  phone_number : String
  registration_number : String
  slug : Option String
  residence_id : Option String
  national_id : Option String
  vat_number : Option String
  registration_type : RegistrationType
deriving DecidableEq, Repr

/-- Host-framework services used by `VendorCreate.clean_input`, as oracles:
`validate_email` (raises iff invalid), `PhoneNumber.from_string` (raises
`NumberParseException` iff the number does not parse), and saleor's
`validate_slug_and_generate_if_needed` (given the brand name and the provided
slug, returns the final slug, or `none` when it raises a `ValidationError`). -/
structure Env where
  emailValid : String → Bool
  phoneParses : String → Bool
  slugResult : String → Option String → Option String

/-- Result of `VendorCreate.clean_input`: `ok` returns the cleaned input (only
the final slug is needed downstream); `raisedMap` is
`raise ValidationError(errors)` on the accumulated field-keyed error dict;
`raisedSingle` is an immediate `raise ValidationError(message=..., code=...)`
that aborts the function before the remaining checks run. -/
inductive CleanResult where
  | ok (finalSlug : String)
  | raisedMap (errors : List (String × VendorErrorCode))
  | raisedSingle (code : VendorErrorCode)
deriving DecidableEq, Repr

/-- The `brand_name` block of `clean_input`: empty name is invalid, otherwise
`Vendor.objects.get(brand_name=...)` finding an existing row yields
`EXISTING_VENDOR`. -/
def brand_name_check (store : List StoredVendor) (data : VendorCreateData) :
    List (String × VendorErrorCode) :=
  if data.brand_name.length = 0 then
    [("brand_name", VendorErrorCode.INVALID_BRAND_NAME)]
  else if store.any (fun v => v.brand_name == data.brand_name) then
    [("brand_name", VendorErrorCode.EXISTING_VENDOR)]
  else []

/-- The `first_name` block of `clean_input`. -/
def first_name_check (data : VendorCreateData) : List (String × VendorErrorCode) :=
  if data.first_name.length = 0 then
    [("first_name", VendorErrorCode.INVALID_FIRST_NAME)]
  else []

/-- The `last_name` block of `clean_input` (the Python code stores a 1-tuple
wrapping the `ValidationError`; only key and code matter here). -/
def last_name_check (data : VendorCreateData) : List (String × VendorErrorCode) :=
  if data.last_name.length = 0 then
    [("last_name", VendorErrorCode.INVALID_LAST_NAME)]
  else []

/-- The `email` block: `if email := data.get("email")` runs `validate_email`
only when the (required, hence present) email string is truthy, i.e. non-empty. -/
def email_check (env : Env) (data : VendorCreateData) : List (String × VendorErrorCode) :=
  if (data.email != "") && !(env.emailValid data.email) then
    [("email", VendorErrorCode.INVALID_EMAIL)]
  else []

/-- The `phone_number` block: only a `NumberParseException` from
`PhoneNumber.from_string` is caught; the result of `.is_valid()` is discarded. -/
def phone_check (env : Env) (data : VendorCreateData) : List (String × VendorErrorCode) :=
  if !(env.phoneParses data.phone_number) then
    [("phone_number", VendorErrorCode.INVALID_PHONE_NUMBER)]
  else []

/-- The `residence_id` format block. -/
def residence_check (data : VendorCreateData) : List (String × VendorErrorCode) :=
  if truthy data.residence_id && !(is_numbers_only (data.residence_id.getD "")) then
    [("residence_id", VendorErrorCode.INVALID_RESIDENCE_ID)]
  else []

/-- The `national_id` format block. -/
def national_check (data : VendorCreateData) : List (String × VendorErrorCode) :=
  if truthy data.national_id && !(is_numbers_only (data.national_id.getD "")) then
    [("national_id", VendorErrorCode.INVALID_NATIONAL_ID)]
  else []

/-- The VAT block: only for `registration_type == COMPANY`; a falsy
`vat_number` is `MISSING_VAT`, a truthy one failing `is_numbers_only` is
`INVALID_VAT`. -/
def vat_check (data : VendorCreateData) : List (String × VendorErrorCode) :=
  if data.registration_type = RegistrationType.COMPANY then
    if !(truthy data.vat_number) then
      [("vat_number", VendorErrorCode.MISSING_VAT)]
    else if !(is_numbers_only (data.vat_number.getD "")) then
      [("vat_number", VendorErrorCode.INVALID_VAT)]
    else []
  else []

/-- The `registration_number` block. -/
def registration_number_check (data : VendorCreateData) : List (String × VendorErrorCode) :=
  if data.registration_number.length = 0 then
    [("registration_number", VendorErrorCode.INVALID_REGISTRATION_NUMBER)]
  else []

/-- The slug block: `validate_slug_and_generate_if_needed` raising is recorded
under key `"slug"` with code `INVALID_SLUG`. -/
def slug_check (env : Env) (data : VendorCreateData) : List (String × VendorErrorCode) :=
  match env.slugResult data.brand_name data.slug with
  | some _ => []
  | none => [("slug", VendorErrorCode.INVALID_SLUG)]

/-- `VendorCreate.clean_input` (`vendor/graphql/mutations.py`, lines 144-256),
block by block in source order.  Each Python `errors[key] = ...` dict
assignment is an append of that entry (each key is assigned at most once).
The two identity-document checks sit between the phone block and the
`residence_id` format block and `raise` immediately, skipping everything
after them; all other blocks only accumulate into `errors`, and the final
`if errors: raise ValidationError(errors)` decides the outcome. -/
def clean_input (env : Env) (store : List StoredVendor) (data : VendorCreateData) :
    CleanResult :=
  let errors : List (String × VendorErrorCode) := []
  let errors := errors ++ brand_name_check store data
  let errors := errors ++ first_name_check data
  let errors := errors ++ last_name_check data
  let errors := errors ++ email_check env data
  let errors := errors ++ phone_check env data
  if truthy data.residence_id && truthy data.national_id then
    CleanResult.raisedSingle VendorErrorCode.ONLY_ONE_ALLOWED
  else if !(truthy data.residence_id) && !(truthy data.national_id) then
    CleanResult.raisedSingle VendorErrorCode.ONLY_ONE_ALLOWED
  else
    let errors := errors ++ residence_check data
    let errors := errors ++ national_check data
    let errors := errors ++ vat_check data
    let errors := errors ++ registration_number_check data
    let errors := errors ++ slug_check env data
    if errors.isEmpty then
      CleanResult.ok ((env.slugResult data.brand_name data.slug).getD "")
    else
      CleanResult.raisedMap errors

/-- All field checks of `clean_input` collected independently, in source order. -/
def all_field_checks (env : Env) (store : List StoredVendor) (data : VendorCreateData) :
    List (String × VendorErrorCode) :=
  brand_name_check store data ++ first_name_check data ++ last_name_check data ++
    email_check env data ++ phone_check env data ++ residence_check data ++
    national_check data ++ vat_check data ++ registration_number_check data ++
    slug_check env data

/-- The validator as the amended claim describes it: the two identity-document
checks raise `ONLY_ONE_ALLOWED` immediately (when both or neither of
`residence_id` / `national_id` is truthy), aborting the remaining checks;
otherwise every field check runs, each failure is accumulated into the
field-keyed error map, and the mutation fails exactly when that map is
non-empty. -/
def clean_input_spec (env : Env) (store : List StoredVendor) (data : VendorCreateData) :
    CleanResult :=
  if truthy data.residence_id = truthy data.national_id then
    CleanResult.raisedSingle VendorErrorCode.ONLY_ONE_ALLOWED
  else if (all_field_checks env store data).isEmpty then
    CleanResult.ok ((env.slugResult data.brand_name data.slug).getD "")
  else
    CleanResult.raisedMap (all_field_checks env store data)

/-- The error map of a `clean_input` outcome (`raisedSingle` carries a single
keyless error, not a map). -/
def errorsOf : CleanResult → List (String × VendorErrorCode)
  | CleanResult.raisedMap l => l
  | _ => []

theorem clean_input_eq_spec (env : Env) (store : List StoredVendor)
    (data : VendorCreateData) :
    clean_input env store data = clean_input_spec env store data := by
  unfold clean_input clean_input_spec all_field_checks
  cases hr : truthy data.residence_id <;> cases hn : truthy data.national_id <;>
    simp [List.append_assoc]

theorem mem_brand_name_check {store : List StoredVendor} {data : VendorCreateData}
    {p : String × VendorErrorCode} (hp : p ∈ brand_name_check store data) :
    p.1 = "brand_name" := by
  unfold brand_name_check at hp
  split at hp <;> simp_all

theorem mem_first_name_check {data : VendorCreateData}
    {p : String × VendorErrorCode} (hp : p ∈ first_name_check data) :
    p.1 = "first_name" := by
  unfold first_name_check at hp
  split at hp <;> simp_all

theorem mem_last_name_check {data : VendorCreateData}
    {p : String × VendorErrorCode} (hp : p ∈ last_name_check data) :
    p.1 = "last_name" := by
  unfold last_name_check at hp
  split at hp <;> simp_all

theorem mem_email_check {env : Env} {data : VendorCreateData}
    {p : String × VendorErrorCode} (hp : p ∈ email_check env data) :
    p.1 = "email" := by
  unfold email_check at hp
  split at hp <;> simp_all

theorem mem_phone_check {env : Env} {data : VendorCreateData}
    {p : String × VendorErrorCode} (hp : p ∈ phone_check env data) :
    p.1 = "phone_number" := by
  unfold phone_check at hp
  split at hp <;> simp_all

theorem mem_residence_check {data : VendorCreateData}
    {p : String × VendorErrorCode} (hp : p ∈ residence_check data) :
    p.1 = "residence_id" := by
  unfold residence_check at hp
  split at hp <;> simp_all

theorem mem_national_check {data : VendorCreateData}
    {p : String × VendorErrorCode} (hp : p ∈ national_check data) :
    p.1 = "national_id" := by
  unfold national_check at hp
  split at hp <;> simp_all

theorem mem_vat_check {data : VendorCreateData}
    {p : String × VendorErrorCode} (hp : p ∈ vat_check data) :
    p.1 = "vat_number" := by
  unfold vat_check at hp
  split at hp
  · split at hp
    · simp_all
    · split at hp <;> simp_all
  · simp_all

theorem mem_registration_number_check {data : VendorCreateData}
    {p : String × VendorErrorCode} (hp : p ∈ registration_number_check data) :
    p.1 = "registration_number" := by
  unfold registration_number_check at hp
  split at hp <;> simp_all

theorem mem_slug_check {env : Env} {data : VendorCreateData}
    {p : String × VendorErrorCode} (hp : p ∈ slug_check env data) :
    p.1 = "slug" := by
  unfold slug_check at hp
  split at hp <;> simp_all

theorem vat_check_maroof {data : VendorCreateData}
    (h : data.registration_type = RegistrationType.MAROOF) :
    vat_check data = [] := by
  unfold vat_check
  rw [h]
  simp

/-- A concrete environment in which every host-framework validator succeeds
and the provided slug (or the brand name) is used as the final slug. -/
def env0 : Env :=
  { emailValid := fun _ => true
    phoneParses := fun _ => true
    slugResult := fun brand s => some (s.getD brand) }

/-- Input with both identity documents and an empty registration number. -/
def dC1 : VendorCreateData :=
  { brand_name := "Acme"
    first_name := "A"
    last_name := "B"
    email := "a@b.co"
    phone_number := "+966555000000"
    registration_number := ""
    slug := some "acme"
    residence_id := some "1"
    national_id := some "2"
    vat_number := some "3"
    registration_type := RegistrationType.COMPANY }

/-- C1: counterexample.  On `dC1` the registration-number check fails (its
`ValidationError` would be `INVALID_REGISTRATION_NUMBER`), yet `clean_input`
aborts at the identity-document check with a single keyless
`raise ValidationError(...)`: the outcome is not a field-keyed error map at
all, its error map is empty, and the later failing check was never
evaluated into it. -/
theorem clean_input_abort_counterexample :
    clean_input env0 [] dC1 = CleanResult.raisedSingle VendorErrorCode.ONLY_ONE_ALLOWED ∧
    dC1.registration_number.length = 0 ∧
    registration_number_check dC1 =
      [("registration_number", VendorErrorCode.INVALID_REGISTRATION_NUMBER)] ∧
    errorsOf (clean_input env0 [] dC1) = [] := by
  refine ⟨by decide, by decide, by decide, by decide⟩

/-- C1 (amended): `VendorCreate.clean_input` accumulates every field check
except the identity-document pair into a map keyed by field name and fails
exactly when that map is non-empty after those checks have run; the two
identity-document checks instead raise `ONLY_ONE_ALLOWED` immediately (when
both or neither of `residence_id` / `national_id` is truthy), aborting
validation before the remaining checks are evaluated. -/
theorem clean_input_accumulates_except_identity (env : Env)
    (store : List StoredVendor) (data : VendorCreateData) :
    clean_input env store data = clean_input_spec env store data :=
  clean_input_eq_spec env store data

/-- C2: `clean_input` raises the single `ONLY_ONE_ALLOWED` validation error
exactly when both of `residence_id` / `national_id` are provided (truthy) or
neither is; it passes the identity-document check exactly when exactly one of
the two is provided. -/
theorem identity_document_exclusivity (env : Env) (store : List StoredVendor)
    (data : VendorCreateData) :
    clean_input env store data = CleanResult.raisedSingle VendorErrorCode.ONLY_ONE_ALLOWED ↔
      truthy data.residence_id = truthy data.national_id := by
  rw [clean_input_eq_spec]
  unfold clean_input_spec
  by_cases h : truthy data.residence_id = truthy data.national_id
  · simp [h]
  · simp only [if_neg h]
    constructor
    · intro hc
      split at hc <;> simp_all
    · intro hc
      exact absurd hc h

/-- Input with registration type COMPANY, both identity documents, and no VAT
number. -/
def dC3 : VendorCreateData :=
  { brand_name := "Bravo"
    first_name := "A"
    last_name := "B"
    email := "c@d.co"
    phone_number := "+966555000001"
    registration_number := "77"
    slug := some "bravo"
    residence_id := some "4"
    national_id := some "5"
    vat_number := none
    registration_type := RegistrationType.COMPANY }

/-- C3: counterexample.  `dC3` has `registration_type = COMPANY` and a missing
`vat_number`, yet `clean_input` produces no `MISSING_VAT` error: it aborts at
the identity-document check with the single `ONLY_ONE_ALLOWED` raise, and its
error map is empty. -/
theorem vat_conditional_counterexample :
    dC3.registration_type = RegistrationType.COMPANY ∧
    dC3.vat_number = none ∧
    clean_input env0 [] dC3 = CleanResult.raisedSingle VendorErrorCode.ONLY_ONE_ALLOWED ∧
    errorsOf (clean_input env0 [] dC3) = [] := by
  refine ⟨by decide, by decide, by decide, by decide⟩

/-- C3 (amended): for inputs that pass the identity-document check (exactly
one of `residence_id` / `national_id` truthy), the VAT requirement is
conditional on the registration type: under COMPANY a falsy `vat_number`
yields a `MISSING_VAT` error and a truthy one failing the numbers-only check
yields an `INVALID_VAT` error, both keyed `"vat_number"`; under MAROOF no
error is ever keyed `"vat_number"`. -/
theorem vat_conditional_amended (env : Env) (store : List StoredVendor)
    (data : VendorCreateData)
    (h : truthy data.residence_id ≠ truthy data.national_id) :
    (data.registration_type = RegistrationType.COMPANY →
      truthy data.vat_number = false →
      ("vat_number", VendorErrorCode.MISSING_VAT) ∈ errorsOf (clean_input env store data)) ∧
    (data.registration_type = RegistrationType.COMPANY →
      truthy data.vat_number = true →
      is_numbers_only (data.vat_number.getD "") = false →
      ("vat_number", VendorErrorCode.INVALID_VAT) ∈ errorsOf (clean_input env store data)) ∧
    (data.registration_type = RegistrationType.MAROOF →
      ∀ c, ("vat_number", c) ∉ errorsOf (clean_input env store data)) := by
  rw [clean_input_eq_spec]
  unfold clean_input_spec
  rw [if_neg h]
  refine ⟨?_, ?_, ?_⟩
  · intro hco hvat
    have hv : ("vat_number", VendorErrorCode.MISSING_VAT) ∈ all_field_checks env store data := by
      unfold all_field_checks vat_check
      rw [hco, hvat]
      simp
    have hne : (all_field_checks env store data).isEmpty = false := by
      rcases he : (all_field_checks env store data).isEmpty with _ | _
      · rfl
      · rw [List.isEmpty_iff] at he
        rw [he] at hv
        exact absurd hv (List.not_mem_nil _)
    rw [hne]
    simpa [errorsOf] using hv
  · intro hco hvat hnum
    have hv : ("vat_number", VendorErrorCode.INVALID_VAT) ∈ all_field_checks env store data := by
      unfold all_field_checks vat_check
      rw [hco, hvat, hnum]
      simp
    have hne : (all_field_checks env store data).isEmpty = false := by
      rcases he : (all_field_checks env store data).isEmpty with _ | _
      · rfl
      · rw [List.isEmpty_iff] at he
        rw [he] at hv
        exact absurd hv (List.not_mem_nil _)
    rw [hne]
    simpa [errorsOf] using hv
  · intro hma c hc
    have hkey : ("vat_number", c).1 = "vat_number" := rfl
    split at hc
    · exact absurd hc (List.not_mem_nil _)
    · rw [errorsOf] at hc
      unfold all_field_checks at hc
      simp only [List.mem_append] at hc
      rcases hc with ((((((((hc | hc) | hc) | hc) | hc) | hc) | hc) | hc) | hc) | hc
      · have hk : "vat_number" = "brand_name" := mem_brand_name_check hc
        exact absurd hk (by decide)
      · have hk : "vat_number" = "first_name" := mem_first_name_check hc
        exact absurd hk (by decide)
      · have hk : "vat_number" = "last_name" := mem_last_name_check hc
        exact absurd hk (by decide)
      · have hk : "vat_number" = "email" := mem_email_check hc
        exact absurd hk (by decide)
      · have hk : "vat_number" = "phone_number" := mem_phone_check hc
        exact absurd hk (by decide)
      · have hk : "vat_number" = "residence_id" := mem_residence_check hc
        exact absurd hk (by decide)
      · have hk : "vat_number" = "national_id" := mem_national_check hc
        exact absurd hk (by decide)
      · rw [vat_check_maroof hma] at hc
        exact absurd hc (List.not_mem_nil _)
      · have hk : "vat_number" = "registration_number" := mem_registration_number_check hc
        exact absurd hk (by decide)
      · have hk : "vat_number" = "slug" := mem_slug_check hc
        exact absurd hk (by decide)

/-- Input passing the identity-document check with COMPANY and no VAT. -/
def dC3w : VendorCreateData :=
  { brand_name := "Charlie"
    first_name := "A"
    last_name := "B"
    email := "e@f.co"
    phone_number := "+966555000002"
    registration_number := "88"
    slug := some "charlie"
    residence_id := some "6"
    national_id := none
    vat_number := none
    registration_type := RegistrationType.COMPANY }

/-- Witness for `vat_conditional_amended` at the concrete input `dC3w`. -/
theorem vat_conditional_amended_witness :
    ("vat_number", VendorErrorCode.MISSING_VAT) ∈ errorsOf (clean_input env0 [] dC3w) :=
  (vat_conditional_amended env0 [] dC3w (by decide)).1 (by decide) (by decide)

theorem is_numbers_only_iff (s : String) :
    is_numbers_only s = true ↔ ∃ c cs, s.data = c :: cs ∧ '0' ≤ c ∧ c ≤ '9' := by
  obtain ⟨l⟩ := s
  unfold is_numbers_only numbers_only_match
  cases l with
  | nil => simp
  | cons c cs =>
    rw [List.takeWhile_cons]
    cases h : (decide ('0' ≤ c) && decide (c ≤ '9')) with
    | true =>
      rw [Bool.and_eq_true, decide_eq_true_iff, decide_eq_true_iff] at h
      simp only [if_true]
      constructor
      · intro _
        exact ⟨c, cs, rfl, h.1, h.2⟩
      · intro _
        simp
    | false =>
      simp only [if_false, List.isEmpty_nil, if_pos, Option.isSome_none]
      constructor
      · intro hfalse
        exact absurd hfalse (by simp)
      · rintro ⟨c2, cs2, heq, h0, h9⟩
        have hc : c = c2 := (List.cons.injEq _ _ _ _ ▸ heq).1
        rw [Bool.and_eq_false_iff] at h
        rcases h with h | h <;>
          rw [decide_eq_false_iff_not] at h <;> rw [hc] at h
        · exact absurd h0 h
        · exact absurd h9 h

/-- Fully valid input except that `residence_id` is `"12a"`, which contains a
non-digit after a digit prefix. -/
def dC9 : VendorCreateData :=
  { brand_name := "Delta"
    first_name := "A"
    last_name := "B"
    email := "g@h.co"
    phone_number := "+966555000003"
    registration_number := "99"
    slug := some "delta"
    residence_id := some "12a"
    national_id := none
    vat_number := none
    registration_type := RegistrationType.MAROOF }

/-- C9: `is_numbers_only` only inspects a prefix.  For every string `s`,
`is_numbers_only s` is truthy iff `s` is non-empty and its first character is
a decimal digit (later non-digits are ignored); in particular `"12a"` passes,
and a `VendorCreate` input with `residence_id = "12a"` sails through
`clean_input` with no error at all. -/
theorem numbers_only_prefix_only :
    (∀ s : String, is_numbers_only s = true ↔
      ∃ c cs, s.data = c :: cs ∧ '0' ≤ c ∧ c ≤ '9') ∧
    is_numbers_only "12a" = true ∧
    is_numbers_only "" = false ∧
    is_numbers_only "a12" = false ∧
    clean_input env0 [] dC9 = CleanResult.ok "delta" :=
  ⟨is_numbers_only_iff, by decide, by decide, by decide, by decide⟩

/-- The row inserted by a successful `VendorCreate`: the cleaned input copied
onto a fresh `models.Vendor` row (the primary key is generated by the
database; here the store length provides a fresh one). -/
def new_vendor_row (store : List StoredVendor) (data : VendorCreateData)
    (finalSlug : String) : StoredVendor :=
  { id := toString store.length
    brand_name := data.brand_name
    slug := finalSlug
    email := data.email
    phone_number := data.phone_number
    registration_number := data.registration_number
    residence_id := data.residence_id
    national_id := data.national_id
    vat_number := data.vat_number
    logo := none
    header_image := none
    registration_type := data.registration_type }

/-- The database insert underneath `ModelMutation.save` for `models.Vendor`:
the columns declared `unique=True` in `vendor/models.py` are `brand_name`,
`slug` and `email`; inserting a row that collides with a stored row on one of
them violates the unique constraint and the insert fails.  `phone_number` is
declared `unique=False` and is not constrained. -/
def db_insert_vendor (store : List StoredVendor) (row : StoredVendor) :
    Option (List StoredVendor) :=
  if store.any (fun v =>
      v.brand_name == row.brand_name || v.slug == row.slug || v.email == row.email) then
    none
  else
    some (store ++ [row])

/-- The `VendorCreate` mutation end to end: `clean_input` (any raise fails the
mutation), then the insert subject to the model's unique constraints. -/
def vendor_create (env : Env) (store : List StoredVendor) (data : VendorCreateData) :
    Option (List StoredVendor) :=
  match clean_input env store data with
  | CleanResult.ok finalSlug => db_insert_vendor store (new_vendor_row store data finalSlug)
  | CleanResult.raisedMap _ => none
  | CleanResult.raisedSingle _ => none

/-- First vendor input for the phone-sharing counterexample. -/
def dA : VendorCreateData :=
  { brand_name := "Alpha"
    first_name := "A"
    last_name := "B"
    email := "a@x.co"
    phone_number := "+966555123456"
    registration_number := "11"
    slug := some "alpha"
    residence_id := some "1"
    national_id := none
    vat_number := none
    registration_type := RegistrationType.MAROOF }

/-- Second vendor input: same phone number as `dA`, everything else fresh. -/
def dB : VendorCreateData :=
  { brand_name := "Beta"
    first_name := "A"
    last_name := "B"
    email := "b@x.co"
    phone_number := "+966555123456"
    registration_number := "22"
    slug := some "beta"
    residence_id := some "2"
    national_id := none
    vat_number := none
    registration_type := RegistrationType.MAROOF }

/-- The rows the two creates insert. -/
def rA : StoredVendor := new_vendor_row [] dA "alpha"

def rB : StoredVendor := new_vendor_row [rA] dB "beta"

/-- C4: counterexample.  `dB` carries the same phone number as the stored
vendor `rA`, yet the second `VendorCreate` succeeds (no check in
`clean_input` and no model constraint mentions the phone number:
`phone_number` is declared `unique=False`), leaving two distinct stored
vendors that share a phone number. -/
theorem phone_uniqueness_counterexample :
    dB.phone_number = rA.phone_number ∧
    vendor_create env0 [] dA = some [rA] ∧
    vendor_create env0 [rA] dB = some [rA, rB] ∧
    rA.phone_number = rB.phone_number ∧
    rA ≠ rB := by
  refine ⟨by decide, by decide, by decide, by decide, by decide⟩

/-- C4 (amended): the pipeline does enforce uniqueness of email and slug — a
create whose email matches a stored vendor's fails, and a successful create
preserves pairwise-distinct emails and slugs across the store (email and slug
are `unique=True` columns; brand-name collisions are additionally rejected by
`clean_input`).  Phone-number uniqueness is NOT enforced (see the
counterexample). -/
theorem vendor_uniqueness_amended (env : Env) (store : List StoredVendor)
    (data : VendorCreateData) :
    ((∃ v ∈ store, v.email = data.email) → vendor_create env store data = none) ∧
    (∀ store', vendor_create env store data = some store' →
      (store.Pairwise (fun a b => a.email ≠ b.email) →
        store'.Pairwise (fun a b => a.email ≠ b.email)) ∧
      (store.Pairwise (fun a b => a.slug ≠ b.slug) →
        store'.Pairwise (fun a b => a.slug ≠ b.slug))) := by
  constructor
  · rintro ⟨v, hv, he⟩
    unfold vendor_create
    rcases hclean : clean_input env store data with s | l | c
    · simp only []
      unfold db_insert_vendor
      rw [if_pos]
      apply List.any_eq_true.mpr
      refine ⟨v, hv, ?_⟩
      have : v.email == (new_vendor_row store data s).email := by
        simpa [new_vendor_row] using he
      simp [this]
    · rfl
    · rfl
  · intro store' hsome
    unfold vendor_create at hsome
    rcases hclean : clean_input env store data with s | l | c <;>
      rw [hclean] at hsome <;> simp only [] at hsome
    case raisedMap => exact absurd hsome (by simp)
    case raisedSingle => exact absurd hsome (by simp)
    · unfold db_insert_vendor at hsome
      split at hsome
      · exact absurd hsome (by simp)
      · rename_i hany
        have hall : ∀ v ∈ store,
            (v.brand_name == (new_vendor_row store data s).brand_name ||
             v.slug == (new_vendor_row store data s).slug ||
             v.email == (new_vendor_row store data s).email) = false := by
          intro v hv
          by_contra hne
          exact hany (List.any_eq_true.mpr ⟨v, hv, eq_true_of_ne_false hne⟩)
        have hstore : store' = store ++ [new_vendor_row store data s] :=
          (Option.some.injEq _ _ ▸ hsome).symm

        subst hstore
        constructor
        · intro hpair
          rw [List.pairwise_append]
          refine ⟨hpair, List.pairwise_singleton _ _, ?_⟩
          intro a ha b hb
          rw [List.mem_singleton] at hb
          subst hb
          have := hall a ha
          simp only [Bool.or_eq_false_iff, beq_eq_false_iff_ne, ne_eq] at this
          exact this.2
        · intro hpair
          rw [List.pairwise_append]
          refine ⟨hpair, List.pairwise_singleton _ _, ?_⟩
          intro a ha b hb
          rw [List.mem_singleton] at hb
          subst hb
          have := hall a ha
          simp only [Bool.or_eq_false_iff, beq_eq_false_iff_ne, ne_eq] at this
          exact this.1.2

/-- Input sharing its email with the stored vendor `rA`. -/
def dAdup : VendorCreateData :=
  { brand_name := "Gamma"
    first_name := "A"
    last_name := "B"
    email := "a@x.co"
    phone_number := "+966555123499"
    registration_number := "33"
    slug := some "gamma"
    residence_id := some "3"
    national_id := none
    vat_number := none
    registration_type := RegistrationType.MAROOF }

/-- Witness for `vendor_uniqueness_amended`: creating `dAdup`, whose email
equals stored `rA.email`, fails. -/
theorem vendor_uniqueness_amended_witness :
    vendor_create env0 [rA] dAdup = none :=
  (vendor_uniqueness_amended env0 [rA] dAdup).1
    ⟨rA, List.mem_singleton_self rA, by decide⟩

/-- Stored vendor used by the update counterexample. -/
def rC : StoredVendor :=
  { id := "V1"
    brand_name := "Echo"
    slug := "echo"
    email := "e@x.co"
    phone_number := "+966555777777"
    registration_number := "44"
    residence_id := some "9"
    national_id := none
    vat_number := none
    logo := some "old-logo.png"
    header_image := some "old-header.png"
    registration_type := RegistrationType.MAROOF }

/-- A stored billing-info row, from `models.BillingInfo`
(`vendor/models.py`). -/
structure BillingRow where
  iban : String
  bank_name : String
  account_holder_name : String
  bank_address : String
  bank_country : String
  bank_city : String
  bank_zipcode : String
  bank_area : String
deriving DecidableEq, Repr

/-- The loop of `BillingInfoUpdate.perform_mutation`
(`vendor/graphql/mutations.py`, lines 379-386):

    for k, v in data.items():
        billing_info.k = v

`billing_info.k = v` assigns the attribute literally named `k` (it is not
`setattr(billing_info, k, v)`), so each iteration overwrites a stray
non-model attribute `k` and never touches any model field.  The in-memory
object is modelled as the row of model fields plus that stray attribute. -/
def billing_update_loop {α : Type} (obj : BillingRow × Option α)
    (data : List (String × α)) : BillingRow × Option α :=
  data.foldl (fun acc kv => (acc.1, some kv.2)) obj

/-- `BillingInfoUpdate.perform_mutation`: load the row, run the loop, then
`billing_info.save()`, which persists the model fields — none of which the
loop assigned. -/
def billing_info_update_perform {α : Type} (stored : BillingRow)
    (data : List (String × α)) : BillingRow :=
  (billing_update_loop (stored, (none : Option α)) data).1

/-- C6 (code bug): `BillingInfoUpdate` never writes the billing record.  For
every stored row and every update payload the saved row equals the original —
the loop body `billing_info.k = v` assigns a stray attribute named `k`
instead of the field named by the loop variable, so no supplied value ever
reaches a model field. -/
theorem billing_update_writes_nothing :
    (∀ (stored : BillingRow) (data : List (String × String)),
      billing_info_update_perform stored data = stored) ∧
    billing_info_update_perform
        { iban := "SA4420000001234567891234"
          bank_name := "OldBank"
          account_holder_name := "Old Holder"
          bank_address := "Old St"
          bank_country := "SA"
          bank_city := "Riyadh"
          bank_zipcode := "11564"
          bank_area := "Center" }
        [("bank_name", "NewBank")] ≠
      { iban := "SA4420000001234567891234"
        bank_name := "NewBank"
        account_holder_name := "Old Holder"
        bank_address := "Old St"
        bank_country := "SA"
        bank_city := "Riyadh"
        bank_zipcode := "11564"
        bank_area := "Center" } := by
  constructor
  · have hloop : ∀ (data : List (String × String)) (obj : BillingRow × Option String),
        (billing_update_loop obj data).1 = obj.1 := by
      intro data
      induction data with
      | nil => intro obj; rfl
      | cons kv rest ih => intro obj; exact ih (obj.1, some kv.2)
    intro stored data
    exact hloop data (stored, none)
  · decide

/-- An attachment record, from `models.Attachment`. -/
structure AttachmentRec where
  vendor_id : String
  file : String
deriving DecidableEq, Repr

/-- saleor's `get_node_or_error`: resolves the given global-ID string against
the store, raising (here `none`) when it does not name a stored vendor. -/
def get_node_or_error (idArg : String) (store : List StoredVendor) :
    Option StoredVendor :=
  store.find? (fun v => v.id == idArg)

/-- `VendorAddAttachment.perform_mutation` (`vendor/graphql/mutations.py`,
lines 411-418):

    vendor = cls.get_node_or_error(info, "vendor_id", only_type="Vendor")

The call passes the literal string `"vendor_id"` as the ID to resolve — not
the `vendor_id` argument, which is ignored. -/
def vendor_add_attachment (store : List StoredVendor) (vendor_id : String)
    (file : String) : Option AttachmentRec :=
  match get_node_or_error "vendor_id" store with
  | none => none
  | some v => some { vendor_id := v.id, file := file }

/-- C7 (code bug): with vendor `rC` (id `"V1"`) stored, calling
`VendorAddAttachment` with `vendor_id = "V1"` fails — no attachment is
created — because the lookup resolves the constant string `"vendor_id"`
instead of the argument; the outcome is the same whatever `vendor_id` is
passed. -/
theorem add_attachment_ignores_vendor_id :
    vendor_add_attachment [rC] "V1" "contract.pdf" = none ∧
    vendor_add_attachment [rC] "V1" "contract.pdf" =
      vendor_add_attachment [rC] "completely-different-id" "contract.pdf" := by
  refine ⟨by decide, by decide⟩

/-- The network and storage effects of `VendorUpdateLogo` /
`VendorUpdateHeader`, as oracles for one call on one URL:
`headContentType` is the `urllib.request.urlopen` HEAD request —
`Except.error` when it raises (connection error, `HTTPError` on non-2xx),
otherwise the optional `Content-Type` header; `guessedType` is
`mimetypes.guess_type(url)[0]`; `downloadOk` is whether
`requests.get(image_url, stream=True)` succeeds; `saveOk` is whether
`vendor.save()` succeeds; `imageFile` is the downloaded file. -/
structure ImgEnv where
  headContentType : Except Unit (Option String)
  guessedType : Option String
  downloadOk : Bool
  saveOk : Bool
  imageFile : String

/-- Whether `pat` occurs at the start of `l` (helper for Python's substring
containment operator `in`). -/
def prefix_match : List Char → List Char → Bool
  | [], _ => true
  | _ :: _, [] => false
  | p :: ps, c :: cs => p == c && prefix_match ps cs

/-- Python's `pat in s` on strings: `pat` occurs contiguously in `l`. -/
def contains_match (pat : List Char) : List Char → Bool
  | [] => pat.isEmpty
  | c :: cs => prefix_match pat (c :: cs) || contains_match pat cs

/-- `is_image_url` (`vendor/graphql/mutations.py`, lines 42-51).  An exception
from `urlopen` propagates (`Except.error`); a missing `Content-Type` header
makes `"image" in r.getheader("Content-Type")` a `TypeError` on `None`, which
also propagates; otherwise the check is `"image"` being a substring of the
header, falling back to `mimetypes.guess_type(url)[0] is not None`. -/
def is_image_url (env : ImgEnv) : Except Unit Bool :=
  match env.headContentType with
  | Except.error _ => Except.error ()
  | Except.ok none => Except.error ()
  | Except.ok (some ct) =>
      if contains_match "image".data ct.data then Except.ok true
      else Except.ok env.guessedType.isSome

/-- Outcome of an image-update mutation call: success, a raised
`ValidationError`, or a propagated non-`ValidationError` exception. -/
inductive MutOutcome where
  | success
  | validationError (code : VendorErrorCode)
  | exn
deriving DecidableEq, Repr

/-- `VendorUpdateLogo.perform_mutation` (`vendor/graphql/mutations.py`, lines
443-470): `is_image_url` runs OUTSIDE the `try` block, so an exception from it
propagates; inside the `if`, the `try` wraps `requests.get`, `upload_image`
(which cannot raise here: the `File` built from a non-empty generated filename
is truthy), the field assignment and `vendor.save()`, and any exception there
is converted into `ValidationError(code=INVALID_IMAGE_URL)`; a falsy check
result takes the `else` branch with the same `ValidationError`.  Returns the
outcome together with the stored vendor row after the call. -/
def vendor_update_logo (env : ImgEnv) (v : StoredVendor) :
    MutOutcome × StoredVendor :=
  match is_image_url env with
  | Except.error _ => (MutOutcome.exn, v)
  | Except.ok true =>
      if env.downloadOk then
        if env.saveOk then
          (MutOutcome.success, { v with logo := some env.imageFile })
        else
          (MutOutcome.validationError VendorErrorCode.INVALID_IMAGE_URL, v)
      else
        (MutOutcome.validationError VendorErrorCode.INVALID_IMAGE_URL, v)
  | Except.ok false =>
      (MutOutcome.validationError VendorErrorCode.INVALID_IMAGE_URL, v)

/-- `VendorUpdateHeader.perform_mutation` (lines 484-511): identical to
`VendorUpdateLogo` with `header_image` in place of `logo`. -/
def vendor_update_header (env : ImgEnv) (v : StoredVendor) :
    MutOutcome × StoredVendor :=
  match is_image_url env with
  | Except.error _ => (MutOutcome.exn, v)
  | Except.ok true =>
      if env.downloadOk then
        if env.saveOk then
          (MutOutcome.success, { v with header_image := some env.imageFile })
        else
          (MutOutcome.validationError VendorErrorCode.INVALID_IMAGE_URL, v)
      else
        (MutOutcome.validationError VendorErrorCode.INVALID_IMAGE_URL, v)
  | Except.ok false =>
      (MutOutcome.validationError VendorErrorCode.INVALID_IMAGE_URL, v)

/-- Environment of a call whose HEAD request raises (e.g. the URL 404s). -/
def envHeadFail : ImgEnv :=
  { headContentType := Except.error ()
    guessedType := some "image/png"
    downloadOk := true
    saveOk := true
    imageFile := "new.png" }

/-- C8: counterexample.  When the HEAD request of `is_image_url` raises, the
URL does not pass the image-URL check (the check returns no boolean at all),
yet `VendorUpdateLogo` does not raise a `ValidationError` with code
`INVALID_IMAGE_URL`: `is_image_url` runs outside the `try` block, so the
underlying exception propagates.  (The stored logo is still unchanged.) -/
theorem image_url_vetting_counterexample :
    (vendor_update_logo envHeadFail rC).1 = MutOutcome.exn ∧
    (vendor_update_logo envHeadFail rC).1 ≠
      MutOutcome.validationError VendorErrorCode.INVALID_IMAGE_URL ∧
    is_image_url envHeadFail = Except.error () ∧
    (vendor_update_logo envHeadFail rC).2 = rC := by
  refine ⟨by decide, by decide, rfl, by decide⟩

/-- C8 (amended): for both `VendorUpdateLogo` and `VendorUpdateHeader`: when
`is_image_url` returns false, or returns true and the body download fails,
the mutation raises `ValidationError(INVALID_IMAGE_URL)` with the stored
image unchanged; the vendor is saved with the new image exactly when the
check returns true and the download and the save succeed; every non-success
outcome leaves the stored row unchanged.  When `is_image_url` itself raises
(HEAD request failure or missing `Content-Type` header), the underlying
exception propagates instead of a `ValidationError` — the stored row is
still unchanged. -/
theorem image_url_vetting_amended (env : ImgEnv) (v : StoredVendor) :
    (is_image_url env = Except.ok false →
      vendor_update_logo env v =
        (MutOutcome.validationError VendorErrorCode.INVALID_IMAGE_URL, v) ∧
      vendor_update_header env v =
        (MutOutcome.validationError VendorErrorCode.INVALID_IMAGE_URL, v)) ∧
    (is_image_url env = Except.ok true → env.downloadOk = false →
      vendor_update_logo env v =
        (MutOutcome.validationError VendorErrorCode.INVALID_IMAGE_URL, v) ∧
      vendor_update_header env v =
        (MutOutcome.validationError VendorErrorCode.INVALID_IMAGE_URL, v)) ∧
    ((vendor_update_logo env v).1 = MutOutcome.success ↔
      is_image_url env = Except.ok true ∧ env.downloadOk = true ∧ env.saveOk = true) ∧
    ((vendor_update_logo env v).1 = MutOutcome.success →
      (vendor_update_logo env v).2 = { v with logo := some env.imageFile }) ∧
    ((vendor_update_logo env v).1 ≠ MutOutcome.success →
      (vendor_update_logo env v).2 = v) ∧
    ((vendor_update_header env v).1 = MutOutcome.success →
      (vendor_update_header env v).2 = { v with header_image := some env.imageFile }) ∧
    ((vendor_update_header env v).1 ≠ MutOutcome.success →
      (vendor_update_header env v).2 = v) ∧
    (∀ e, is_image_url env = Except.error e →
      (vendor_update_logo env v).1 = MutOutcome.exn ∧
      (vendor_update_header env v).1 = MutOutcome.exn) := by
  unfold vendor_update_logo vendor_update_header
  rcases hchk : is_image_url env with e | b
  · simp
  · cases b <;> cases hdl : env.downloadOk <;> cases hsv : env.saveOk <;> simp

/-- Environment of a call whose HEAD request answers with a non-image
content type and whose URL has no recognizable file extension. -/
def envNotImage : ImgEnv :=
  { headContentType := Except.ok (some "text/html")
    guessedType := none
    downloadOk := true
    saveOk := true
    imageFile := "new.png" }

/-- Witness for `image_url_vetting_amended`: a URL failing the check yields
the `INVALID_IMAGE_URL` validation error and leaves the row unchanged. -/
theorem image_url_vetting_amended_witness :
    vendor_update_logo envNotImage rC =
      (MutOutcome.validationError VendorErrorCode.INVALID_IMAGE_URL, rC) ∧
    vendor_update_header envNotImage rC =
      (MutOutcome.validationError VendorErrorCode.INVALID_IMAGE_URL, rC) :=
  (image_url_vetting_amended envNotImage rC).1 rfl

/-- A Python value in the commission input dict: `name` / `currency` are
strings, `type` / `price_amount` are ints. -/
inductive PyVal where
  | vstr (s : String)
  | vint (n : Int)
deriving DecidableEq, Repr

/-- Dict lookup `d[k]` without a default: `none` models a raised `KeyError`. -/
def pyLookup (d : List (String × PyVal)) (k : String) : Option PyVal :=
  (d.find? (fun kv => kv.1 == k)).map (fun kv => kv.2)

/-- Python `v == ""`: true only for the empty string; an int never equals a
string. -/
def pyEqEmptyStr : PyVal → Bool
  | PyVal.vstr s => s == ""
  | PyVal.vint _ => false

/-- Outcome of `CommissionCreate.clean_input`: the input returned unchanged,
an unhandled `KeyError` on the named field, or
`raise ValidationError(validation_errors)` with `COMMISSION_ERROR` entries for
the named fields. -/
inductive CommissionCleanResult where
  | ok (input : List (String × PyVal))
  | keyError (field : String)
  | validationError (fields : List String)
deriving DecidableEq, Repr

/-- The field list of the loop in `CommissionCreate.clean_input`. -/
def commission_fields : List String := ["name", "type", "currency", "price_amount"]

/-- The loop `for field in [...]: if data["input"][field] == "": ...`:
the first field absent from the dict raises `KeyError`; otherwise fields equal
to `""` are accumulated into `validation_errors`. -/
def commission_clean_loop (input : List (String × PyVal)) :
    List String → List String → Except String (List String)
  | [], acc => Except.ok acc
  | f :: rest, acc =>
      match pyLookup input f with
      | none => Except.error f
      | some v =>
          commission_clean_loop input rest (if pyEqEmptyStr v then acc ++ [f] else acc)

/-- `CommissionCreate.clean_input` (`vendor/graphql/mutations.py`, lines
726-737): run the loop over `["name", "type", "currency", "price_amount"]`,
then `raise ValidationError(validation_errors)` if any accumulated, else
return `data["input"]`. -/
def commission_clean_input (input : List (String × PyVal)) : CommissionCleanResult :=
  match commission_clean_loop input commission_fields [] with
  | Except.error f => CommissionCleanResult.keyError f
  | Except.ok ve =>
      if ve.isEmpty then CommissionCleanResult.ok input
      else CommissionCleanResult.validationError ve

theorem commission_clean_loop_ok_all_found (input : List (String × PyVal)) :
    ∀ fields acc ve, commission_clean_loop input fields acc = Except.ok ve →
      ∀ f ∈ fields, (pyLookup input f).isSome := by
  intro fields
  induction fields with
  | nil => intro acc ve _ f hf; exact absurd hf (List.not_mem_nil f)
  | cons g rest ih =>
    intro acc ve hok f hf
    unfold commission_clean_loop at hok
    rcases hl : pyLookup input g with _ | v
    · rw [hl] at hok
      exact absurd hok (by simp)
    · rw [hl] at hok
      rcases List.mem_cons.mp hf with hfg | hfr
      · rw [hfg, hl]; rfl
      · exact ih _ ve hok f hfr

theorem commission_clean_loop_ve_empty (input : List (String × PyVal)) :
    ∀ fields acc ve, commission_clean_loop input fields acc = Except.ok ve →
      ∀ f ∈ ve, f ∈ acc ∨ pyLookup input f = some (PyVal.vstr "") := by
  intro fields
  induction fields with
  | nil =>
    intro acc ve hok f hf
    unfold commission_clean_loop at hok
    have : acc = ve := by simpa using hok
    rw [this]
    exact Or.inl hf
  | cons g rest ih =>
    intro acc ve hok f hf
    unfold commission_clean_loop at hok
    rcases hl : pyLookup input g with _ | v
    · rw [hl] at hok
      exact absurd hok (by simp)
    · simp only [hl] at hok
      rcases hemp : pyEqEmptyStr v with _ | _
      · simp only [hemp, Bool.false_eq_true, if_false] at hok
        exact ih _ ve hok f hf
      · simp only [hemp, if_true] at hok
        rcases ih _ ve hok f hf with hacc | hfound
        · rcases List.mem_append.mp hacc with h1 | h1
          · exact Or.inl h1
          · rw [List.mem_singleton] at h1
            subst h1
            refine Or.inr ?_
            rcases v with s | n
            · unfold pyEqEmptyStr at hemp
              rw [beq_iff_eq] at hemp
              rw [hemp] at hl
              exact hl
            · exact absurd hemp (by simp [pyEqEmptyStr])
        · exact Or.inr hfound

/-- C10: `CommissionCreate.clean_input` unconditionally indexes the input at
`"name"`, `"type"`, `"currency"` and `"price_amount"`: whenever one of the
optional fields `type`, `currency` or `price_amount` is omitted, the lookup
raises an unhandled `KeyError` (no `CommissionError` is produced); and the
`COMMISSION_ERROR` branch only ever names fields that are present in the
input with value exactly the empty string. -/
theorem commission_clean_input_keyerror (input : List (String × PyVal)) :
    ((∃ f ∈ commission_fields, pyLookup input f = none) →
      ∃ g, commission_clean_input input = CommissionCleanResult.keyError g ∧
        pyLookup input g = none) ∧
    (∀ l, commission_clean_input input = CommissionCleanResult.validationError l →
      ∀ f ∈ l, pyLookup input f = some (PyVal.vstr "")) := by
  constructor
  · rintro ⟨f, hf, hnone⟩
    unfold commission_clean_input
    rcases hloop : commission_clean_loop input commission_fields [] with g | ve
    · refine ⟨g, rfl, ?_⟩
      clear hf hnone f
      revert hloop
      generalize ([] : List String) = acc
      induction commission_fields generalizing acc with
      | nil => intro h; exact absurd h (by simp [commission_clean_loop])
      | cons x rest ih =>
        intro h
        unfold commission_clean_loop at h
        rcases hl : pyLookup input x with _ | v
        · rw [hl] at h
          have hxg : x = g := by
            simp only [] at h
            exact (Except.error.injEq _ _ ▸ h)
          rw [← hxg]
          exact hl
        · simp only [hl] at h
          exact ih _ h
    · exfalso
      have := commission_clean_loop_ok_all_found input commission_fields [] ve hloop f hf
      rw [hnone] at this
      exact absurd this (by simp)
  · intro l hve f hf
    unfold commission_clean_input at hve
    rcases hloop : commission_clean_loop input commission_fields [] with g | ve
    · rw [hloop] at hve
      exact absurd hve (by simp)
    · simp only [hloop] at hve
      rcases hemp : ve.isEmpty with _ | _
      · simp only [hemp, Bool.false_eq_true, if_false] at hve
        have hlv : ve = l := by simpa using hve
        subst hlv
        rcases commission_clean_loop_ve_empty input commission_fields [] ve hloop f hf with
          h1 | h1
        · exact absurd h1 (List.not_mem_nil f)
        · exact h1
      · simp only [hemp, if_true] at hve
        exact absurd hve (by simp)

/-- A commission input that omits the optional `type`, `currency` and
`price_amount` fields, plus one with an empty `currency`. -/
def commissionMissingType : List (String × PyVal) := [("name", PyVal.vstr "basic")]

/-- Witness for `commission_clean_input_keyerror` at
`commissionMissingType`: the missing `"type"` field makes the mutation die
with a `KeyError` rather than a `CommissionError`. -/
theorem commission_clean_input_keyerror_witness :
    ∃ g, commission_clean_input commissionMissingType = CommissionCleanResult.keyError g ∧
      pyLookup commissionMissingType g = none :=
  (commission_clean_input_keyerror commissionMissingType).1
    ⟨"type", by decide, by decide⟩

end Vendor
